import Mathlib

/-!
Shallow embedding of `src/index.js` of the js-3d-model-viewer repository
(the session-based variant: `prepareScene` / `loadObject` / `loadObj` /
`clearScene` / `fitCameraToObject` / `resetObjectPosition` / `setLights` /
`setCamera`), together with theorems settling the frozen claims about it.

Modelling conventions:
* JavaScript numbers are modelled as rationals (`ℚ`); byte counts as `Nat`.
* Engine-provided functions (the 3D library's `Math.tan`,
  `Box3.setFromObject`, `Vector3.normalize`) are out-of-scope collaborators
  and are passed in as an explicit `Engine` record of abstract functions.
* A JavaScript object property that may be absent (`undefined`) is an
  `Option`; reading `.position` of an absent property is a thrown
  `TypeError`, modelled by threading an `Option JsError` through the
  affected code path, together with the state mutated up to the throw.
* The asynchronous loader callbacks are modelled by an explicit outcome
  value: the transport invokes the progress handler zero or more times and
  then exactly one of the success / error handlers (`ObjOutcome`), or, for
  the material loader—on which the code registers only a success
  handler—possibly never completes (`MtlOutcome.pending`).
* Event emissions on the bound container element and invocations of the
  caller's callback are collected in traces, in emission order.
-/

namespace Viewer

/-- Component-wise rational 3D vector (THREE.Vector3 state). -/
structure Vec3 where
  x : ℚ
  y : ℚ
  z : ℚ
deriving DecidableEq, Repr

/-- A THREE.MeshPhongMaterial, reduced to its colour. -/
structure Material where
  color : Nat
deriving DecidableEq, Repr

/-- The uniform grey fallback material created at the top of `loadObj`:
`new THREE.MeshPhongMaterial({ color: 0xbbbbcc })`. -/
def defaultMaterial : Material := ⟨0xbbbbcc⟩

/-- A node of a scene graph: a mesh (with its optional material), a group
(with its child nodes), or any other object kind (lights, …), carrying the
THREE `type` tag string. Identifiers stand for JavaScript object identity. -/
inductive Node where
  | mesh (id : Nat) (material : Option Material)
  | group (id : Nat) (children : List Node)
  | other (ctype : String) (id : Nat)

/-- The THREE `type` tag of a node (`obj.type` in the source). -/
def Node.ctype : Node → String
  | .mesh _ _ => "Mesh"
  | .group _ _ => "Group"
  | .other t _ => t

/-- A THREE.Object3D as far as the viewer code observes it: its node graph,
its position and its z rotation (the fields `resetObjectPosition` writes). -/
structure Object3D where
  node : Node
  position : Vec3
  rotationZ : ℚ

/-- The THREE `type` tag of an object. -/
def Object3D.ctype (o : Object3D) : String := o.node.ctype

/-- The `scene.lights` JavaScript object. `setLights` stores `{ambient}`,
so every field other than `ambient` is absent (`none`); `fitCameraToObject`
reads `keyLight`, `fillLight` and `backLight` from it. -/
structure LightsObj where
  keyLight : Option Object3D
  fillLight : Option Object3D
  backLight : Option Object3D
  ambient : Option Object3D

/-- The camera state the viewer code reads or writes. -/
structure Camera where
  fov : ℚ
  aspect : ℚ
  near : ℚ
  far : ℚ
  positionZ : ℚ
deriving DecidableEq, Repr

/-- An axis-aligned bounding box (THREE.Box3). -/
structure Box3 where
  min : Vec3
  max : Vec3
deriving DecidableEq, Repr

/-- THREE `Box3.getSize`: component-wise `max - min`. -/
def Box3.getSize (b : Box3) : Vec3 :=
  ⟨b.max.x - b.min.x, b.max.y - b.min.y, b.max.z - b.min.z⟩

/-- The engine-provided (out-of-scope) functions the viewer code calls:
`Math.tan`, `Box3.setFromObject` (world bounding box of an object), and
`Vector3.normalize`. -/
structure Engine where
  tan : ℚ → ℚ
  setFromObject : Object3D → Box3
  normalize : Vec3 → Vec3

/-- The viewer session: the scene with its children list, the camera and
lights references `prepareScene` hangs on it, and the `locked` flag
(absent/`undefined` reads as `false`). -/
structure Scene where
  children : List Object3D
  camera : Camera
  lights : LightsObj
  locked : Bool

/-- Source `setCamera`: `new THREE.PerspectiveCamera(45, aspect, 0.01, 1000)`
with `camera.position.z = 5`. -/
def setCamera (aspect : ℚ) : Camera :=
  { fov := 45, aspect := aspect, near := 1 / 100, far := 1000, positionZ := 5 }

/-- Source `setLights`: creates one ambient light and two directional
lights (`backLight` at `(100,0,-100).normalize()`, `fillLight` at
`(100,0,100)`), adds all three as scene children, and stores
`scene.lights = {ambient}` — an object holding only the ambient light. -/
def setLights (eng : Engine) (scene : Scene) : Scene :=
  let ambient : Object3D := ⟨Node.other "AmbientLight" 0, ⟨0, 0, 0⟩, 0⟩
  let backLight : Object3D :=
    ⟨Node.other "DirectionalLight" 1, eng.normalize ⟨100, 0, -100⟩, 0⟩
  let fillLight : Object3D :=
    ⟨Node.other "DirectionalLight" 2, ⟨100, 0, 100⟩, 0⟩
  { scene with
      children := scene.children ++ [backLight, fillLight, ambient]
      lights := ⟨none, none, none, some ambient⟩ }

/-- Source `prepareScene`: builds a fresh scene, configures the camera from
the container's aspect ratio, adds the lights, and hangs camera and lights
on the scene. Renderer, orbit controls, render loop and the window resize
listener are pure engine/DOM effects with no session state the claims
observe, and are omitted. -/
def prepareScene (eng : Engine) (width height : ℚ) : Scene :=
  let camera := setCamera (width / height)
  setLights eng { children := [], camera := camera,
                  lights := ⟨none, none, none, none⟩, locked := false }

/-- One pass of the JavaScript `Array.prototype.forEach` loop of
`clearScene`: the iteration bound `fuel` is the children count captured
when the loop starts, `k` is the current index; an index at or beyond the
current length is skipped (the element list may have shrunk), a child whose
`type` tag is `"Group"` is removed in place (`scene.remove(obj)` splices it
out at its current index), and the index always advances by one. -/
def clearSceneGo : Nat → Nat → List Object3D → List Object3D
  | 0, _, cs => cs
  | fuel + 1, k, cs =>
    match cs.get? k with
    | some c =>
      if c.ctype = "Group" then clearSceneGo fuel (k + 1) (cs.eraseIdx k)
      else clearSceneGo fuel (k + 1) cs
    | none => clearSceneGo fuel (k + 1) cs

/-- Source `clearScene` body on the children list:
`scene.children.forEach((obj) => { if (obj.type === 'Group') scene.remove(obj) })`.
The removal mutates the very array being iterated. -/
def clearChildren (cs : List Object3D) : List Object3D :=
  clearSceneGo cs.length 0 cs

/-- Source `clearScene` at the scene level: only the children list changes. -/
def clearScene (scene : Scene) : Scene :=
  { scene with children := clearChildren scene.children }

/-- A thrown JavaScript error, identified by the property access that
raised it (`TypeError: cannot read 'position' of undefined`). -/
inductive JsError where
  | typeError (prop : String)
deriving DecidableEq, Repr

/-- A notification dispatched on the bound container element by
`emitEvent` (`CustomEvent` name plus `detail` payload). -/
inductive Event where
  | loading (loaded total : Nat)
  | loaded (obj : Object3D)
  | error (err : Nat)

/-- An invocation of the caller-supplied callback: with the loaded object
on success, with the error value on failure. -/
inductive CallbackArg where
  | obj (o : Object3D)
  | err (e : Nat)

/-- One progress report from the transport (the `xhr` argument of the
progress handler): bytes loaded and total bytes. -/
structure ProgressEvt where
  loaded : Nat
  total : Nat
deriving DecidableEq, Repr

/-- What the mesh transport/parser does for one load: it invokes the
progress handler once per listed report and then exactly one of the
success handler (with the parsed object) or the error handler. -/
inductive ObjOutcome where
  | success (progress : List ProgressEvt) (obj : Object3D)
  | failure (progress : List ProgressEvt) (err : Nat)

/-- What the material loader does: either its completion callback fires
(the only callback `loadObject` registers on it — no progress or error
handler is passed), or it never fires at all. -/
inductive MtlOutcome where
  | completed
  | pending

mutual

/-- The body of `obj.traverse` in `loadObj`'s success handler:
`if (child instanceof THREE.Mesh) child.material = material`, applied to
every node of the graph. The assignment is unconditional on mesh nodes —
it does not test whether the mesh already has a material. -/
def setMeshMaterial (m : Material) : Node → Node
  | .mesh i _ => .mesh i (some m)
  | .group i cs => .group i (setMeshMaterialList m cs)
  | .other t i => .other t i

/-- `setMeshMaterial` over a list of child nodes. -/
def setMeshMaterialList (m : Material) : List Node → List Node
  | [] => []
  | c :: cs => setMeshMaterial m c :: setMeshMaterialList m cs

end

mutual

/-- The materials of the mesh nodes of a graph, in traversal order. -/
def meshMaterials : Node → List (Option Material)
  | .mesh _ mat => [mat]
  | .group _ cs => meshMaterialsList cs
  | .other _ _ => []

/-- `meshMaterials` over a list of child nodes. -/
def meshMaterialsList : List Node → List (Option Material)
  | [] => []
  | c :: cs => meshMaterials c ++ meshMaterialsList cs

end

/-- Source `resetObjectPosition`: recomputes the bounding box from the
object (`boundingBox.setFromObject(object)` overwrites the box passed in),
reads its size, and moves the object so the box is centred on the origin,
zeroing the z rotation. Returns the recomputed box (the caller's box was
mutated) and the moved object. -/
def resetObjectPosition (eng : Engine) (object : Object3D) :
    Box3 × Object3D :=
  let boundingBox := eng.setFromObject object
  let size := boundingBox.getSize
  (boundingBox,
   { object with
       position := ⟨-boundingBox.min.x - size.x / 2,
                    -boundingBox.min.y - size.y / 2,
                    -boundingBox.min.z - size.z / 2⟩
       rotationZ := 0 })

/-- The state `fitCameraToObject` leaves behind, with the error it threw,
if any. On a throw the components hold the mutations made up to the
throwing statement. -/
structure FitResult where
  camera : Camera
  object : Object3D
  lights : LightsObj
  thrown : Option JsError

/-- Source `fitCameraToObject`: computes the bounding box of the object,
recentres the object, reads the box size, sets
`camera.position.z = max(|size.y / 2 * tan(fov * 2)|, size.z) * 1.5`, then
writes the positions of `lights.keyLight`, `lights.fillLight` and
`lights.backLight` in that order. Reading `.position` of an absent light
property throws a `TypeError`, aborting the rest of the statements. -/
def fitCameraToObject (eng : Engine) (camera : Camera) (object : Object3D)
    (lights : LightsObj) : FitResult :=
  let fov := camera.fov
  let (boundingBox, object) := resetObjectPosition eng object
  let size := boundingBox.getSize
  let cameraZ := |size.y / 2 * eng.tan (fov * 2)|
  let z := max cameraZ size.z * (3 / 2)
  let camera := { camera with positionZ := z }
  match lights.keyLight with
  | none => ⟨camera, object, lights, some (JsError.typeError "keyLight.position")⟩
  | some keyLight =>
    let lights := { lights with keyLight := some { keyLight with position := ⟨-z, 0, z⟩ } }
    match lights.fillLight with
    | none => ⟨camera, object, lights, some (JsError.typeError "fillLight.position")⟩
    | some fillLight =>
      let lights := { lights with fillLight := some { fillLight with position := ⟨z, 0, z⟩ } }
      match lights.backLight with
      | none => ⟨camera, object, lights, some (JsError.typeError "backLight.position")⟩
      | some backLight =>
        ⟨camera, object,
         { lights with backLight := some { backLight with position := ⟨z, 0, -z⟩ } },
         none⟩

/-- The progress handler of `loadObj`: with `xhr.total === 0` it emits
`loading` with the placeholder `{loaded: 0, total: 100}`, otherwise it
emits the transport's actual byte counts. -/
def progressHandler (xhr : ProgressEvt) : Event :=
  if xhr.total = 0 then Event.loading 0 100
  else Event.loading xhr.loaded xhr.total

/-- The observable result of running `loadObj` (or the tail of
`loadObject`): final session state, emitted notifications in order,
callback invocations in order, and the error thrown out of a handler, if
any. -/
structure LoadResult where
  scene : Scene
  events : List Event
  calls : List CallbackArg
  thrown : Option JsError

/-- Source `loadObj`, run against a transport outcome. `hasMaterials` is
the truthiness of `objLoader.materials` (set exactly when `loadObject`
took the material branch and called `setMaterials`). On parse success the
handler applies the fallback grey material to every mesh node when
`objLoader.materials` is unset, adds the object to the scene, calls
`fitCameraToObject`; if that call throws, the handler aborts — the lock
stays set, the callback is not invoked and no `loaded` event is emitted.
Otherwise it clears the lock, invokes the callback with the object and
emits `loaded`. On transport error the handler emits `error` and invokes
the callback with the error; it does not touch the lock. -/
def loadObj (eng : Engine) (hasMaterials : Bool) (scene : Scene)
    (hasCallback : Bool) (outcome : ObjOutcome) : LoadResult :=
  match outcome with
  | .success progress obj =>
    let loadingEvents := progress.map progressHandler
    let obj := if hasMaterials then obj
               else { obj with node := setMeshMaterial defaultMaterial obj.node }
    let fit := fitCameraToObject eng scene.camera obj scene.lights
    let scene := { scene with
                     children := scene.children ++ [fit.object]
                     camera := fit.camera
                     lights := fit.lights }
    match fit.thrown with
    | some e => ⟨scene, loadingEvents, [], some e⟩
    | none =>
      ⟨{ scene with locked := false },
       loadingEvents ++ [Event.loaded fit.object],
       if hasCallback then [CallbackArg.obj fit.object] else [],
       none⟩
  | .failure progress err =>
    ⟨scene,
     progress.map progressHandler ++ [Event.error err],
     if hasCallback then [CallbackArg.err err] else [],
     none⟩

/-- The observable result of `loadObject`: whether it returned `false`
(rather than the loader handle), and the rest as in `LoadResult`. -/
structure LoadObjectResult where
  returnedFalse : Bool
  scene : Scene
  events : List Event
  calls : List CallbackArg
  thrown : Option JsError

/-- Source `loadObject`: returns `false` immediately when the session is
locked; otherwise sets the lock and either loads the material first (only
a completion callback is registered on the material loader, so a material
fetch that never completes leaves the session locked with nothing emitted)
or goes straight to `loadObj` without materials. -/
def loadObject (eng : Engine) (scene : Scene) (hasMaterialUrl : Bool)
    (mtl : MtlOutcome) (hasCallback : Bool) (outcome : ObjOutcome) :
    LoadObjectResult :=
  if scene.locked then ⟨true, scene, [], [], none⟩
  else
    let scene := { scene with locked := true }
    if hasMaterialUrl then
      match mtl with
      | .pending => ⟨false, scene, [], [], none⟩
      | .completed =>
        let r := loadObj eng true scene hasCallback outcome
        ⟨false, r.scene, r.events, r.calls, r.thrown⟩
    else
      let r := loadObj eng false scene hasCallback outcome
      ⟨false, r.scene, r.events, r.calls, r.thrown⟩

/-- Concrete engine instance used for closed evaluations: an arbitrary
tangent function, a constant 2×2×2 bounding box, identity normalisation. -/
def testEngine : Engine :=
  ⟨fun q => q, fun _ => ⟨⟨0, 0, 0⟩, ⟨2, 2, 2⟩⟩, fun v => v⟩

/-- A loaded-asset group child with the given identity. -/
def groupChild (i : Nat) : Object3D := ⟨Node.group i [], ⟨0, 0, 0⟩, 0⟩

/-- A directional-light child with the given identity. -/
def lightChild (i : Nat) : Object3D :=
  ⟨Node.other "DirectionalLight" i, ⟨0, 0, 0⟩, 0⟩

/-- A parsed object: a group holding one mesh that already carries its own
(red) material and one mesh without a material. -/
def testObj : Object3D :=
  ⟨Node.group 10 [Node.mesh 11 (some ⟨0xff0000⟩), Node.mesh 12 none], ⟨5, 5, 5⟩, 3⟩

/-- No two adjacent children both carry the `"Group"` type tag. -/
def noAdjacentGroups : List Object3D → Bool
  | a :: b :: t =>
    (!(a.ctype == "Group" && b.ctype == "Group")) && noAdjacentGroups (b :: t)
  | _ => true

/-- Unfolding of one loop step when the current index holds a group child:
that child is removed in place and the index advances. -/
theorem clearSceneGo_step_group (fuel k : Nat) (cs : List Object3D)
    (c : Object3D) (hc : cs.get? k = some c) (hg : c.ctype = "Group") :
    clearSceneGo (fuel + 1) k cs = clearSceneGo fuel (k + 1) (cs.eraseIdx k) := by
  have h : clearSceneGo (fuel + 1) k cs =
      match cs.get? k with
      | some c =>
        if c.ctype = "Group" then clearSceneGo fuel (k + 1) (cs.eraseIdx k)
        else clearSceneGo fuel (k + 1) cs
      | none => clearSceneGo fuel (k + 1) cs := rfl
  rw [h, hc]
  simp [hg]

/-- Unfolding of one loop step when the current index holds a non-group
child: nothing is removed and the index advances. -/
theorem clearSceneGo_step_nonGroup (fuel k : Nat) (cs : List Object3D)
    (c : Object3D) (hc : cs.get? k = some c) (hg : c.ctype ≠ "Group") :
    clearSceneGo (fuel + 1) k cs = clearSceneGo fuel (k + 1) cs := by
  have h : clearSceneGo (fuel + 1) k cs =
      match cs.get? k with
      | some c =>
        if c.ctype = "Group" then clearSceneGo fuel (k + 1) (cs.eraseIdx k)
        else clearSceneGo fuel (k + 1) cs
      | none => clearSceneGo fuel (k + 1) cs := rfl
  rw [h, hc]
  simp [hg]

/-- Unfolding of one loop step when the current index is past the end of
the (possibly shrunk) array: the step is a no-op. -/
theorem clearSceneGo_step_none (fuel k : Nat) (cs : List Object3D)
    (hc : cs.get? k = none) :
    clearSceneGo (fuel + 1) k cs = clearSceneGo fuel (k + 1) cs := by
  have h : clearSceneGo (fuel + 1) k cs =
      match cs.get? k with
      | some c =>
        if c.ctype = "Group" then clearSceneGo fuel (k + 1) (cs.eraseIdx k)
        else clearSceneGo fuel (k + 1) cs
      | none => clearSceneGo fuel (k + 1) cs := rfl
  rw [h, hc]

/-- Splicing below the current index commutes with a leading element. -/
theorem eraseIdx_cons (x : Object3D) (cs : List Object3D) (k : Nat) :
    (x :: cs).eraseIdx (k + 1) = x :: cs.eraseIdx k := rfl

/-- Iterating from index `k + 1` over `x :: cs` never touches `x`: it acts
as iterating from index `k` over `cs` under one more leading element. -/
theorem clearSceneGo_cons (fuel : Nat) : ∀ (k : Nat) (x : Object3D)
    (cs : List Object3D),
    clearSceneGo fuel (k + 1) (x :: cs) = x :: clearSceneGo fuel k cs := by
  induction fuel with
  | zero => intro k x cs; rfl
  | succ fuel ih =>
    intro k x cs
    have hx : (x :: cs).get? (k + 1) = cs.get? k := List.get?_cons_succ
    cases h : cs.get? k with
    | none =>
      rw [clearSceneGo_step_none _ _ _ (hx.trans h),
          clearSceneGo_step_none _ _ _ h, ih]
    | some c =>
      by_cases hg : c.ctype = "Group"
      · rw [clearSceneGo_step_group _ _ _ c (hx.trans h) hg,
            clearSceneGo_step_group _ _ _ c h hg,
            eraseIdx_cons, ih]
      · rw [clearSceneGo_step_nonGroup _ _ _ c (hx.trans h) hg,
            clearSceneGo_step_nonGroup _ _ _ c h hg, ih]

/-- Iterations whose index is already at or beyond the length of the list
do nothing, so surplus fuel is irrelevant once it covers the length. -/
theorem clearSceneGo_extra (fuel : Nat) : ∀ (k : Nat) (cs : List Object3D),
    cs.length ≤ k + fuel →
    clearSceneGo (fuel + 1) k cs = clearSceneGo fuel k cs := by
  induction fuel with
  | zero =>
    intro k cs h
    have hn : cs.get? k = none := List.get?_eq_none.mpr (by omega)
    rw [clearSceneGo_step_none _ _ _ hn]
    rfl
  | succ fuel ih =>
    intro k cs h
    cases hc : cs.get? k with
    | none =>
      rw [clearSceneGo_step_none _ _ _ hc, clearSceneGo_step_none _ _ _ hc]
      exact ih (k + 1) cs (by omega)
    | some c =>
      by_cases hg : c.ctype = "Group"
      · rw [clearSceneGo_step_group _ _ _ c hc hg,
            clearSceneGo_step_group _ _ _ c hc hg]
        have hk : k < cs.length := (List.get?_eq_some.mp hc).1
        have hlen : (cs.eraseIdx k).length = cs.length - 1 := by
          rw [List.length_eraseIdx]; simp [hk]
        exact ih (k + 1) (cs.eraseIdx k) (by omega)
      · rw [clearSceneGo_step_nonGroup _ _ _ c hc hg,
            clearSceneGo_step_nonGroup _ _ _ c hc hg]
        exact ih (k + 1) cs (by omega)

/-- The loop passes over a leading run of non-group children untouched and
then behaves as a fresh loop over the rest. -/
theorem clearSceneGo_nonGroup_run : ∀ (p : List Object3D) (fuel : Nat)
    (ys : List Object3D), (∀ c ∈ p, c.ctype ≠ "Group") →
    clearSceneGo (p.length + fuel) 0 (p ++ ys) = p ++ clearSceneGo fuel 0 ys := by
  intro p
  induction p with
  | nil => intro fuel ys _; simp
  | cons x p ih =>
    intro fuel ys hp
    have hx : x.ctype ≠ "Group" := hp x (List.mem_cons_self x p)
    have hstep : (x :: p).length + fuel = (p.length + fuel) + 1 := by
      simp [List.length_cons]; omega
    rw [hstep, List.cons_append,
        clearSceneGo_step_nonGroup _ _ _ x List.get?_cons_zero hx,
        clearSceneGo_cons,
        ih fuel ys (fun c hc => hp c (List.mem_cons_of_mem x hc))]
    rfl

/-- With no group child in front of them, the first of two adjacent group
children is removed and the second survives: removing the first shifts the
array left, so the iteration's next index lands past the second. The tail
after the pair is then processed like a fresh `clearScene` of its own. -/
theorem clearChildren_adjacent_pair (p : List Object3D) (g1 g2 : Object3D)
    (s : List Object3D) (hp : ∀ c ∈ p, c.ctype ≠ "Group")
    (h1 : g1.ctype = "Group") (h2 : g2.ctype = "Group") :
    clearChildren (p ++ g1 :: g2 :: s) = p ++ g2 :: clearChildren s := by
  unfold clearChildren
  have hlen : (p ++ g1 :: g2 :: s).length = p.length + (s.length + 2) := by
    simp [List.length_append]
  rw [hlen, clearSceneGo_nonGroup_run p (s.length + 2) (g1 :: g2 :: s) hp]
  rw [show s.length + 2 = (s.length + 1) + 1 from rfl,
      clearSceneGo_step_group _ _ _ g1 List.get?_cons_zero h1]
  rw [show (g1 :: g2 :: s).eraseIdx 0 = g2 :: s from rfl, clearSceneGo_cons]
  rw [clearSceneGo_extra s.length 0 s (by omega)]

/-- The adjacency test holds of a tail whenever it holds of the list. -/
theorem noAdjacentGroups_tail : ∀ (a : Object3D) (t : List Object3D),
    noAdjacentGroups (a :: t) = true → noAdjacentGroups t = true := by
  intro a t h
  match t with
  | [] => rfl
  | b :: t' =>
    have heq : noAdjacentGroups (a :: b :: t') =
        ((!(a.ctype == "Group" && b.ctype == "Group")) &&
          noAdjacentGroups (b :: t')) := rfl
    rw [heq, Bool.and_eq_true] at h
    exact h.2

/-- Adjacent pairs at the head both being groups contradicts the test. -/
theorem noAdjacentGroups_head : ∀ (a b : Object3D) (t : List Object3D),
    noAdjacentGroups (a :: b :: t) = true → a.ctype = "Group" →
    b.ctype ≠ "Group" := by
  intro a b t h ha hb
  have heq : noAdjacentGroups (a :: b :: t) =
      ((!(a.ctype == "Group" && b.ctype == "Group")) &&
        noAdjacentGroups (b :: t)) := rfl
  rw [heq, Bool.and_eq_true] at h
  have := h.1
  rw [ha, hb] at this
  simp at this

/-- When no two group children are adjacent, the loop removes exactly the
group children: it behaves as a filter keeping the non-group children. -/
theorem clearChildren_no_adjacent_aux : ∀ (n : Nat) (cs : List Object3D),
    cs.length ≤ n → noAdjacentGroups cs = true →
    clearChildren cs = cs.filter (fun c => !(c.ctype == "Group")) := by
  intro n
  induction n with
  | zero =>
    intro cs hlen _
    have : cs = [] := List.eq_nil_of_length_eq_zero (by omega)
    subst this; rfl
  | succ n ih =>
    intro cs hlen hadj
    match cs with
    | [] => rfl
    | c :: cs' =>
      by_cases hg : c.ctype = "Group"
      · match cs' with
        | [] =>
          unfold clearChildren
          rw [show ([c] : List Object3D).length = 0 + 1 from rfl,
              clearSceneGo_step_group _ _ _ c List.get?_cons_zero hg,
              show ([c] : List Object3D).eraseIdx 0 = [] from rfl]
          simp [clearSceneGo, List.filter, hg]
        | b :: t =>
          have hb : b.ctype ≠ "Group" := noAdjacentGroups_head c b t hadj hg
          have hadj' : noAdjacentGroups t = true :=
            noAdjacentGroups_tail b t (noAdjacentGroups_tail c (b :: t) hadj)
          have hlen' : t.length ≤ n := by
            have : (c :: b :: t).length = t.length + 2 := by simp
            omega
          unfold clearChildren
          rw [show (c :: b :: t).length = (t.length + 1) + 1 by simp,
              clearSceneGo_step_group _ _ _ c List.get?_cons_zero hg,
              show (c :: b :: t).eraseIdx 0 = b :: t from rfl,
              clearSceneGo_cons, clearSceneGo_extra t.length 0 t (by omega),
              show clearSceneGo t.length 0 t = clearChildren t from rfl,
              ih t hlen' hadj']
          have hgeq : (c.ctype == "Group") = true := by simp [hg]
          have hbeq : (b.ctype == "Group") = false := by simp [hb]
          simp [List.filter_cons, hgeq, hbeq]
      · have hadj' : noAdjacentGroups cs' = true := noAdjacentGroups_tail c cs' hadj
        have hlen' : cs'.length ≤ n := by
          have : (c :: cs').length = cs'.length + 1 := by simp
          omega
        unfold clearChildren
        rw [show (c :: cs').length = cs'.length + 1 by simp,
            clearSceneGo_step_nonGroup _ _ _ c List.get?_cons_zero hg,
            clearSceneGo_cons,
            show clearSceneGo cs'.length 0 cs' = clearChildren cs' from rfl,
            ih cs' hlen' hadj']
        have hgeq : (c.ctype == "Group") = false := by simp [hg]
        simp [List.filter_cons, hgeq]

/-- Scene-level consequence: with no two adjacent group children,
`clearScene` removes every group child and keeps every other child. -/
theorem clearScene_no_adjacent (s : Scene)
    (h : noAdjacentGroups s.children = true) :
    clearScene s = { s with children := s.children.filter (fun c => !(c.ctype == "Group")) } := by
  unfold clearScene
  rw [clearChildren_no_adjacent_aux s.children.length s.children le_rfl h]

mutual

/-- Traversing a graph with the material assignment overwrites the
material slot of every mesh node, whatever it held before. -/
theorem meshMaterials_set (m : Material) (n : Node) :
    meshMaterials (setMeshMaterial m n) =
      (meshMaterials n).map (fun _ => some m) := by
  cases n with
  | mesh i mat => simp [setMeshMaterial, meshMaterials]
  | group i cs => simp [setMeshMaterial, meshMaterials, meshMaterialsList_set m cs]
  | other t i => simp [setMeshMaterial, meshMaterials]

/-- List version of `meshMaterials_set`. -/
theorem meshMaterialsList_set (m : Material) (ns : List Node) :
    meshMaterialsList (setMeshMaterialList m ns) =
      (meshMaterialsList ns).map (fun _ => some m) := by
  cases ns with
  | nil => simp [setMeshMaterialList, meshMaterialsList]
  | cons c cs =>
    simp [setMeshMaterialList, meshMaterialsList, meshMaterials_set m c,
      meshMaterialsList_set m cs]

end

/-- Recogniser for `loading` notifications. -/
def isLoadingEvent : Event → Bool
  | .loading _ _ => true
  | .loaded _ => false
  | .error _ => false

/-- The progress handler only ever emits `loading` notifications. -/
theorem progressHandler_isLoading (xhr : ProgressEvt) :
    isLoadingEvent (progressHandler xhr) = true := by
  unfold progressHandler
  split <;> rfl

/-- A session with no two adjacent group children, used as witness input. -/
def sceneNoAdj : Scene :=
  { children := [lightChild 1, groupChild 3, lightChild 2, groupChild 4],
    camera := setCamera 1, lights := ⟨none, none, none, none⟩, locked := false }

/-- Claim C1 (code_bug). The claim says the `locked` flag is reset to
`false` on both completion paths. On the code neither path resets it: the
error handler never writes `locked`, and the success handler throws a
`TypeError` inside `fitCameraToObject` (reading `lights.keyLight.position`
of a `scene.lights` object that `setLights` populated with only
`{ambient}`) before reaching `scene.locked = false`. Evaluated here on a
`prepareScene` session for both a successful parse and a failed load: the
lock stays `true` in both cases. -/
theorem c1_lock_not_reset_on_either_path :
    ((loadObject testEngine (prepareScene testEngine 4 3) false
        MtlOutcome.completed true (ObjOutcome.success [] testObj)).scene.locked = true)
    ∧ ((loadObject testEngine (prepareScene testEngine 4 3) false
        MtlOutcome.completed true (ObjOutcome.failure [] 7)).scene.locked = true) :=
  ⟨rfl, rfl⟩

/-- Claim C2 (confirmed). A call to `loadObject` on a locked session
returns `false`, leaves the whole session state (scene children, camera,
lights, locked flag) unchanged, emits no notification and invokes no
callback, for any material URL, material outcome, callback and transport
outcome. -/
theorem c2_locked_load_rejected (eng : Engine) (scene : Scene)
    (hasMaterialUrl : Bool) (mtl : MtlOutcome) (cb : Bool)
    (outcome : ObjOutcome) (h : scene.locked = true) :
    loadObject eng scene hasMaterialUrl mtl cb outcome =
      ⟨true, scene, [], [], none⟩ := by
  unfold loadObject
  simp [h]

/-- Witness for C2 at a concrete locked session. -/
theorem c2_witness :
    ({ prepareScene testEngine 4 3 with locked := true } : Scene).locked = true
    ∧ loadObject testEngine { prepareScene testEngine 4 3 with locked := true }
        true MtlOutcome.completed true (ObjOutcome.success [] testObj) =
      ⟨true, { prepareScene testEngine 4 3 with locked := true }, [], [], none⟩ :=
  ⟨rfl, c2_locked_load_rejected testEngine
    { prepareScene testEngine 4 3 with locked := true } true
    MtlOutcome.completed true (ObjOutcome.success [] testObj) rfl⟩

/-- Claim C3 (code_bug). On a successful mesh parse the handler does add
the (re-materialed) node graph to the scene and `fitCameraToObject` does
run — it updates the camera distance from the new bounding box — but the
claim's remaining steps never happen on a `prepareScene` session: reading
`lights.keyLight.position` throws (`scene.lights` holds only `{ambient}`),
so the lock stays `true`, the callback is not invoked and no `"loaded"`
notification is emitted. Evaluated on a concrete session and parse. -/
theorem c3_success_handler_aborts :
    (loadObject testEngine (prepareScene testEngine 4 3) false
        MtlOutcome.completed true (ObjOutcome.success [] testObj)).scene.children.map
        Object3D.node =
      (prepareScene testEngine 4 3).children.map Object3D.node
        ++ [setMeshMaterial defaultMaterial testObj.node]
    ∧ (loadObject testEngine (prepareScene testEngine 4 3) false
        MtlOutcome.completed true (ObjOutcome.success [] testObj)).scene.camera.positionZ
      = 135
    ∧ (loadObject testEngine (prepareScene testEngine 4 3) false
        MtlOutcome.completed true (ObjOutcome.success [] testObj)).thrown
      = some (JsError.typeError "keyLight.position")
    ∧ (loadObject testEngine (prepareScene testEngine 4 3) false
        MtlOutcome.completed true (ObjOutcome.success [] testObj)).scene.locked = true
    ∧ (loadObject testEngine (prepareScene testEngine 4 3) false
        MtlOutcome.completed true (ObjOutcome.success [] testObj)).calls = []
    ∧ (loadObject testEngine (prepareScene testEngine 4 3) false
        MtlOutcome.completed true (ObjOutcome.success [] testObj)).events = [] := by
  refine ⟨rfl, ?_, rfl, rfl, rfl, rfl⟩
  norm_num [loadObject, loadObj, fitCameraToObject, resetObjectPosition,
    prepareScene, setLights, setCamera, testEngine, testObj, Box3.getSize]

/-- Claim C4 (code_bug). For a failed load the events are exactly the
`loading` notifications followed by one `error` — no `loaded`, orderings as
claimed. But for a successful parse on a `prepareScene` session no
terminal notification is emitted at all (the success handler dies on the
`lights.keyLight` `TypeError` before `emitEvent('loaded')`), contradicting
the claim that every load ends with one terminal notification. -/
theorem c4_ordering_and_missing_terminal :
    (∀ (eng : Engine) (hm : Bool) (scene : Scene) (cb : Bool)
       (ps : List ProgressEvt) (e : Nat),
       (loadObj eng hm scene cb (ObjOutcome.failure ps e)).events =
           ps.map progressHandler ++ [Event.error e]
       ∧ (ps.map progressHandler).all isLoadingEvent = true)
    ∧ (loadObject testEngine (prepareScene testEngine 4 3) false
         MtlOutcome.completed true
         (ObjOutcome.success [⟨5, 10⟩] testObj)).events = [Event.loading 5 10] := by
  refine ⟨fun eng hm scene cb ps e => ⟨rfl, ?_⟩, rfl⟩
  exact List.all_eq_true.mpr (fun x hx => by
    rcases List.mem_map.mp hx with ⟨xhr, _, rfl⟩
    exact progressHandler_isLoading xhr)

/-- Claim C5 (corrected), counterexample: a scene whose children are a
light followed by two adjacent groups. One `clearScene` pass leaves the
second group in place — the claim that every direct `'Group'` child is
removed is false at this input. -/
theorem c5_counterexample :
    clearChildren [lightChild 1, groupChild 3, groupChild 4] =
      [lightChild 1, groupChild 4]
    ∧ (groupChild 4).ctype = "Group"
    ∧ groupChild 4 ∈ clearChildren [lightChild 1, groupChild 3, groupChild 4] :=
  ⟨rfl, rfl, List.Mem.tail _ (List.Mem.head _)⟩

/-- Claim C5 (corrected), amended: when no two `'Group'` children are
adjacent, one `clearScene` call removes exactly the group children and
leaves every non-group child (camera, lights) in place — the scene is the
input scene with its children filtered to the non-group ones. -/
theorem c5_clear_removes_groups_no_adjacent (s : Scene)
    (h : noAdjacentGroups s.children = true) :
    clearScene s =
      { s with children := s.children.filter (fun c => !(c.ctype == "Group")) } :=
  clearScene_no_adjacent s h

/-- Witness for C5 on a concrete light/group alternating scene. -/
theorem c5_witness :
    noAdjacentGroups sceneNoAdj.children = true
    ∧ clearScene sceneNoAdj =
      { sceneNoAdj with
          children := sceneNoAdj.children.filter (fun c => !(c.ctype == "Group")) } :=
  ⟨rfl, c5_clear_removes_groups_no_adjacent sceneNoAdj rfl⟩

/-- Claim C6 (corrected), counterexample: three adjacent groups. For the
adjacent pair formed by the second and third children, the call removes the
second member of the pair and keeps the first — the opposite of the claim,
which asserts this for every adjacent pair. -/
theorem c6_counterexample :
    clearChildren [groupChild 0, groupChild 1, groupChild 2] = [groupChild 1]
    ∧ (groupChild 1).ctype = "Group"
    ∧ (groupChild 2).ctype = "Group"
    ∧ groupChild 1 ∈ clearChildren [groupChild 0, groupChild 1, groupChild 2]
    ∧ groupChild 2 ∉ clearChildren [groupChild 0, groupChild 1, groupChild 2] := by
  refine ⟨rfl, rfl, rfl, List.Mem.head _, ?_⟩
  intro hmem
  have h2 : groupChild 2 ∈ [groupChild 1] := hmem
  have heq := List.mem_singleton.mp h2
  simp [groupChild] at heq

/-- Claim C6 (corrected), amended: for two adjacent `'Group'` children with
no `'Group'` child anywhere before them in the children list, one
`clearScene` call removes the first of the pair and leaves the second (the
`forEach` removal shifts the array left so the next index skips it); the
tail after the pair is processed like a fresh pass of its own. -/
theorem c6_adjacent_pair_skips_second (p : List Object3D) (g1 g2 : Object3D)
    (s : List Object3D) (hp : ∀ c ∈ p, c.ctype ≠ "Group")
    (h1 : g1.ctype = "Group") (h2 : g2.ctype = "Group") :
    clearChildren (p ++ g1 :: g2 :: s) = p ++ g2 :: clearChildren s :=
  clearChildren_adjacent_pair p g1 g2 s hp h1 h2

/-- Witness for C6 with one light before the adjacent pair. -/
theorem c6_witness :
    (∀ c ∈ [lightChild 9], c.ctype ≠ "Group")
    ∧ (groupChild 5).ctype = "Group"
    ∧ (groupChild 6).ctype = "Group"
    ∧ clearChildren ([lightChild 9] ++ groupChild 5 :: groupChild 6 :: []) =
        [lightChild 9] ++ groupChild 6 :: clearChildren [] :=
  ⟨by decide, rfl, rfl,
    c6_adjacent_pair_skips_second [lightChild 9] (groupChild 5) (groupChild 6) []
      (by decide) rfl rfl⟩

/-- Claim C7 (code_bug). The camera part of the claim holds of the code for
every engine, camera, object and lights object: the camera's z position is
set to `max(|size.y / 2 * tan(fov * 2)|, size.z) * 1.5` computed from the
object's bounding box. The lights part does not: on a session built by
this module, `scene.lights` holds only `{ambient}`, so `fitCameraToObject`
throws a `TypeError` reading `lights.keyLight.position` and no directional
light is ever repositioned (evaluated on a `prepareScene` session's lights
object: the lights object comes back unchanged, with the throw). -/
theorem c7_camera_formula_lights_throw :
    (∀ (eng : Engine) (camera : Camera) (object : Object3D)
       (lights : LightsObj),
       (fitCameraToObject eng camera object lights).camera.positionZ =
         max (|((eng.setFromObject object).getSize).y / 2 * eng.tan (camera.fov * 2)|)
             ((eng.setFromObject object).getSize).z * (3 / 2))
    ∧ (fitCameraToObject testEngine (setCamera 1) testObj
         (prepareScene testEngine 4 3).lights).thrown =
        some (JsError.typeError "keyLight.position")
    ∧ (fitCameraToObject testEngine (setCamera 1) testObj
         (prepareScene testEngine 4 3).lights).lights =
        (prepareScene testEngine 4 3).lights := by
  refine ⟨?_, rfl, rfl⟩
  intro eng camera object lights
  unfold fitCameraToObject resetObjectPosition
  rcases lights with ⟨kl, fl, bl, amb⟩
  cases kl <;> cases fl <;> cases bl <;> simp [Box3.getSize]

/-- Claim C8 (corrected), counterexample: a parsed graph holding one mesh
that carries its own (red) material and one mesh without any. After a load
without material URL completes, both mesh slots hold the fallback grey —
the mesh that had its own material did not keep it. -/
theorem c8_counterexample :
    meshMaterials testObj.node = [some ⟨0xff0000⟩, none]
    ∧ (loadObject testEngine (prepareScene testEngine 4 3) false
        MtlOutcome.completed true (ObjOutcome.success [] testObj)).scene.children.map
        (fun c => meshMaterials c.node) =
      [[], [], [], [some defaultMaterial, some defaultMaterial]]
    ∧ (⟨0xff0000⟩ : Material) ≠ defaultMaterial :=
  ⟨rfl, rfl, by decide⟩

/-- Claim C8 (corrected), amended: for every load run without a material
URL, once the mesh parse completes, the scene gains exactly one child whose
graph is the parsed graph with the fallback grey material written into
every mesh node — including those that already had one, whose own material
is overwritten. -/
theorem c8_fallback_overwrites_all (eng : Engine) (scene : Scene) (cb : Bool)
    (ps : List ProgressEvt) (obj : Object3D) :
    (loadObj eng false scene cb (ObjOutcome.success ps obj)).scene.children.map
        Object3D.node =
      scene.children.map Object3D.node ++ [setMeshMaterial defaultMaterial obj.node]
    ∧ meshMaterials (setMeshMaterial defaultMaterial obj.node) =
      (meshMaterials obj.node).map (fun _ => some defaultMaterial) := by
  constructor
  · unfold loadObj fitCameraToObject resetObjectPosition
    cases hk : scene.lights.keyLight <;>
      cases hf : scene.lights.fillLight <;>
        cases hb : scene.lights.backLight <;>
          simp [hk, hf, hb, List.map_append]
  · exact meshMaterials_set defaultMaterial obj.node

/-- Claim C9 (confirmed). Every `loading` notification of a load carries
the placeholder `{loaded: 0, total: 100}` when the transport reported
`total = 0` and the transport's actual byte counts otherwise — on the
failure path the events are exactly those payloads followed by the error,
and on the success path the first `|progress|` events are exactly those
payloads. -/
theorem c9_progress_payloads (eng : Engine) (hm : Bool) (scene : Scene)
    (cb : Bool) (ps : List ProgressEvt) (e : Nat) (obj : Object3D) :
    (loadObj eng hm scene cb (ObjOutcome.failure ps e)).events =
      ps.map (fun xhr => if xhr.total = 0 then Event.loading 0 100
                         else Event.loading xhr.loaded xhr.total)
        ++ [Event.error e]
    ∧ (loadObj eng hm scene cb (ObjOutcome.success ps obj)).events.take ps.length =
      ps.map (fun xhr => if xhr.total = 0 then Event.loading 0 100
                         else Event.loading xhr.loaded xhr.total) := by
  constructor
  · rfl
  · have hex : ∃ t, (loadObj eng hm scene cb (ObjOutcome.success ps obj)).events =
        ps.map progressHandler ++ t := by
      unfold loadObj
      cases h : (fitCameraToObject eng scene.camera
          (if hm = true then obj
           else { obj with node := setMeshMaterial defaultMaterial obj.node })
          scene.lights).thrown <;> simp only [h] <;>
        first
        | exact ⟨_, rfl⟩
        | exact ⟨[], by simp⟩
    rcases hex with ⟨t, ht⟩
    rw [ht, ← List.length_map ps progressHandler, List.take_left]
    rfl

/-- Claim C10 (confirmed). On an unlocked session a load with a material
URL whose material fetch never completes leaves the session locked, emits
no notification, invokes no callback and throws nothing; the call itself
returns the loader handle, not `false`. Only a completion callback is
registered on the material loader, so nothing else can ever run. -/
theorem c10_material_never_completes (eng : Engine) (scene : Scene)
    (cb : Bool) (outcome : ObjOutcome) (h : scene.locked = false) :
    loadObject eng scene true MtlOutcome.pending cb outcome =
      ⟨false, { scene with locked := true }, [], [], none⟩ := by
  unfold loadObject
  simp [h]

/-- Witness for C10 on a fresh `prepareScene` session. -/
theorem c10_witness :
    (prepareScene testEngine 4 3).locked = false
    ∧ loadObject testEngine (prepareScene testEngine 4 3) true
        MtlOutcome.pending true (ObjOutcome.success [] testObj) =
      ⟨false, { prepareScene testEngine 4 3 with locked := true }, [], [], none⟩ :=
  ⟨rfl, c10_material_never_completes testEngine (prepareScene testEngine 4 3)
    true (ObjOutcome.success [] testObj) rfl⟩

end Viewer
